import Mathlib

/-!
Verification of the WeChat proxy service (AccessToken repository).

The development shallowly embeds the route handlers of the repository:
the WeChat Pay V2 unified-order signing procedure (`onPostWxPayV2`), the
pay route, the mini-program QR-code route (`onPostWxMpACode`), and the
pay notification route. JavaScript strings are Lean `String`s; a JS value
that may be `undefined` is an `Option`; template-literal interpolation of
`undefined` renders the text "undefined", as in Node. MD5 is implemented
in full (RFC 1321) over UTF-8 bytes, matching the Node
`crypto.createHash` MD5 with its default utf8 input encoding.
-/

set_option maxRecDepth 100000

namespace WxPay

/-! 32-bit arithmetic helpers and MD5 (RFC 1321) -/

def mask32 (n : Nat) : Nat := n &&& 0xFFFFFFFF

def not32 (n : Nat) : Nat := 0xFFFFFFFF ^^^ mask32 n

def rotl32 (x s : Nat) : Nat := mask32 ((x <<< s) ||| (mask32 x >>> (32 - s)))

def md5K : List Nat :=
  [0xd76aa478, 0xe8c7b756, 0x242070db, 0xc1bdceee,
   0xf57c0faf, 0x4787c62a, 0xa8304613, 0xfd469501,
   0x698098d8, 0x8b44f7af, 0xffff5bb1, 0x895cd7be,
   0x6b901122, 0xfd987193, 0xa679438e, 0x49b40821,
   0xf61e2562, 0xc040b340, 0x265e5a51, 0xe9b6c7aa,
   0xd62f105d, 0x02441453, 0xd8a1e681, 0xe7d3fbc8,
   0x21e1cde6, 0xc33707d6, 0xf4d50d87, 0x455a14ed,
   0xa9e3e905, 0xfcefa3f8, 0x676f02d9, 0x8d2a4c8a,
   0xfffa3942, 0x8771f681, 0x6d9d6122, 0xfde5380c,
   0xa4beea44, 0x4bdecfa9, 0xf6bb4b60, 0xbebfbc70,
   0x289b7ec6, 0xeaa127fa, 0xd4ef3085, 0x04881d05,
   0xd9d4d039, 0xe6db99e5, 0x1fa27cf8, 0xc4ac5665,
   0xf4292244, 0x432aff97, 0xab9423a7, 0xfc93a039,
   0x655b59c3, 0x8f0ccc92, 0xffeff47d, 0x85845dd1,
   0x6fa87e4f, 0xfe2ce6e0, 0xa3014314, 0x4e0811a1,
   0xf7537e82, 0xbd3af235, 0x2ad7d2bb, 0xeb86d391]

def md5S : List Nat :=
  [7, 12, 17, 22, 7, 12, 17, 22, 7, 12, 17, 22, 7, 12, 17, 22,
   5, 9, 14, 20, 5, 9, 14, 20, 5, 9, 14, 20, 5, 9, 14, 20,
   4, 11, 16, 23, 4, 11, 16, 23, 4, 11, 16, 23, 4, 11, 16, 23,
   6, 10, 15, 21, 6, 10, 15, 21, 6, 10, 15, 21, 6, 10, 15, 21]

def md5Pad (msg : List Nat) : List Nat :=
  let len := msg.length
  let z := (119 - len % 64) % 64
  let bitLen := (len * 8) % (2 ^ 64)
  msg ++ 0x80 :: List.replicate z 0 ++
    (List.range 8).map (fun i => (bitLen >>> (8 * i)) &&& 0xFF)

def leWord (block : List Nat) (j : Nat) : Nat :=
  block.getD (4 * j) 0 ||| (block.getD (4 * j + 1) 0 <<< 8) |||
    (block.getD (4 * j + 2) 0 <<< 16) ||| (block.getD (4 * j + 3) 0 <<< 24)

def md5Step (block : List Nat) (st : Nat × Nat × Nat × Nat) (i : Nat) :
    Nat × Nat × Nat × Nat :=
  let a := st.1
  let b := st.2.1
  let c := st.2.2.1
  let d := st.2.2.2
  let fg : Nat × Nat :=
    if i < 16 then ((b &&& c) ||| (not32 b &&& d), i)
    else if i < 32 then ((d &&& b) ||| (not32 d &&& c), (5 * i + 1) % 16)
    else if i < 48 then (b ^^^ c ^^^ d, (3 * i + 5) % 16)
    else (c ^^^ (b ||| not32 d), (7 * i) % 16)
  let f := mask32 (fg.1 + a + md5K.getD i 0 + leWord block fg.2)
  (d, mask32 (b + rotl32 f (md5S.getD i 0)), b, c)

def md5Block (st : Nat × Nat × Nat × Nat) (block : List Nat) :
    Nat × Nat × Nat × Nat :=
  let r := (List.range 64).foldl (md5Step block) st
  (mask32 (st.1 + r.1), mask32 (st.2.1 + r.2.1),
   mask32 (st.2.2.1 + r.2.2.1), mask32 (st.2.2.2 + r.2.2.2))

def chunks64Aux : Nat → List Nat → List (List Nat)
  | 0, _ => []
  | _, [] => []
  | fuel + 1, l => l.take 64 :: chunks64Aux fuel (l.drop 64)

def chunks64 (l : List Nat) : List (List Nat) := chunks64Aux l.length l

def wordLEBytes (w : Nat) : List Nat :=
  [w &&& 0xFF, (w >>> 8) &&& 0xFF, (w >>> 16) &&& 0xFF, (w >>> 24) &&& 0xFF]

def md5Bytes (msg : List Nat) : List Nat :=
  let st := (chunks64 (md5Pad msg)).foldl md5Block
    (0x67452301, 0xefcdab89, 0x98badcfe, 0x10325476)
  wordLEBytes st.1 ++ wordLEBytes st.2.1 ++
    wordLEBytes st.2.2.1 ++ wordLEBytes st.2.2.2

def hexAlphabet : List Char := "0123456789abcdef".data

def hexDigit (n : Nat) : Char := hexAlphabet.getD (n % 16) '0'

def byteToHex (b : Nat) : List Char := [hexDigit (b / 16), hexDigit b]

def bytesToHex (bs : List Nat) : String := String.mk (bs.map byteToHex).flatten

/-- UTF-8 encoding of a Unicode code point, as the Node default utf8
input encoding of `hash.update` produces. -/
def utf8Char (c : Nat) : List Nat :=
  if c < 0x80 then [c]
  else if c < 0x800 then
    [0xC0 ||| (c >>> 6), 0x80 ||| (c &&& 0x3F)]
  else if c < 0x10000 then
    [0xE0 ||| (c >>> 12), 0x80 ||| ((c >>> 6) &&& 0x3F), 0x80 ||| (c &&& 0x3F)]
  else
    [0xF0 ||| (c >>> 18), 0x80 ||| ((c >>> 12) &&& 0x3F),
     0x80 ||| ((c >>> 6) &&& 0x3F), 0x80 ||| (c &&& 0x3F)]

def strBytes (s : String) : List Nat := (s.data.map (fun c => utf8Char c.toNat)).flatten

/-- Lowercase hex MD5 digest of a string, UTF-8 encoded: the model of
the Node `crypto.createHash` MD5 update and hex digest. -/
def md5Hex (s : String) : String := bytesToHex (md5Bytes (strBytes s))

/-! String helpers: JS code-unit comparison, Array.sort, includes -/

def charListLe : List Char → List Char → Bool
  | x :: xs, y :: ys =>
    if x < y then true else if y < x then false else charListLe xs ys
  | [], _ => true
  | _, [] => false

/-- The default `Array.prototype.sort` comparator order on strings
(code-unit lexicographic; identical to code-point order on ASCII keys). -/
def strLe (s t : String) : Bool := charListLe s.data t.data

def insertSorted (k : String) : List String → List String
  | [] => [k]
  | q :: qs => if strLe k q then k :: q :: qs else q :: insertSorted k qs

/-- Model of `keys.sort()` on distinct string keys. -/
def sortStrings : List String → List String
  | [] => []
  | k :: ks => insertSorted k (sortStrings ks)

def insertPairSorted (p : String × String) :
    List (String × String) → List (String × String)
  | [] => [p]
  | q :: qs => if strLe p.1 q.1 then p :: q :: qs else q :: insertPairSorted p qs

def sortPairs : List (String × String) → List (String × String)
  | [] => []
  | p :: ps => insertPairSorted p (sortPairs ps)

def matchesAt : List Char → List Char → Bool
  | p :: ps, t :: ts => p == t && matchesAt ps ts
  | [], _ => true
  | _, [] => false

def hasSubAux (pat : List Char) : List Char → Bool
  | [] => matchesAt pat []
  | t :: ts => matchesAt pat (t :: ts) || hasSubAux pat ts

/-- Model of `String.prototype.includes`. -/
def strIncludes (s pat : String) : Bool := hasSubAux pat.data s.data

/-! JSON values and JS string rendering -/

inductive Json where
  | str (s : String)
  | num (n : Nat)
  | obj (fields : List (String × Json))

/-- Template-literal rendering of a possibly-undefined JS string:
`undefined` interpolates as the text "undefined". -/
def jsStr : Option String → String
  | none => "undefined"
  | some s => s

/-- JS truthiness of a possibly-undefined string parameter: `undefined`
and the empty string are falsy. -/
def truthy : Option String → Bool
  | none => false
  | some s => !(s == "")

/-! onPostWxPayV2: the order model and the signing procedure -/

/-- Argument record of `onPostWxPayV2` (`orderInfo`). Fields the pay
route may leave undefined are Options; `none` is JS `undefined`. -/
structure OrderInfo where
  appId : String
  mchId : String
  nonceString : String
  body : String
  attach : Option String
  outTradeNo : String
  totalFee : Nat
  notifyUrl : Option String
  openId : Option String
  tradeType : Option String
  deriving DecidableEq

/-- The `wxOrderInfo` object literal of `onPostWxPayV2`, with each value
rendered as the template literal renders it; `tradeType` defaults to
JSAPI at destructuring when undefined. Keys are in source insertion
order. -/
def wxOrderFields (o : OrderInfo) : List (String × String) :=
  [("appid", o.appId), ("mch_id", o.mchId), ("nonce_str", o.nonceString),
   ("body", o.body), ("attach", jsStr o.attach), ("out_trade_no", o.outTradeNo),
   ("total_fee", toString o.totalFee), ("notify_url", jsStr o.notifyUrl),
   ("openid", jsStr o.openId), ("trade_type", o.tradeType.getD "JSAPI")]

/-- Model of `Object.keys(wxOrderInfo)`. -/
def objKeys (o : OrderInfo) : List String := (wxOrderFields o).map Prod.fst

/-- Model of the property read `wxOrderInfo[key]` as rendered by the
template literal (a missing property is `undefined`). -/
def objGet (o : OrderInfo) (k : String) : String :=
  ((wxOrderFields o).lookup k).getD "undefined"

/-- The canonical signing string of `onPostWxPayV2`: `keys.sort()`, then
the reduce accumulating one `key=value&` segment per key, then the
trailing `key=<apiKey>`. -/
def wxSignString (apiKey : String) (o : OrderInfo) : String :=
  (sortStrings (objKeys o)).foldl
    (fun acc k => acc ++ k ++ "=" ++ objGet o k ++ "&") ""
    ++ "key=" ++ apiKey

/-- The `sign` field: lowercase hex MD5 of the canonical signing
string. -/
def wxSign (apiKey : String) (o : OrderInfo) : String :=
  md5Hex (wxSignString apiKey o)

/-- The second canonical string of `onPostWxPayV2`, hashed into
`paySign`, exactly as the source template literal concatenates it. -/
def paySignString (appId nonceString prepayId timeStamp apiKey : String) : String :=
  "appId=" ++ appId ++ "&nonceStr=" ++ nonceString ++ "&package=prepay_id=" ++
    prepayId ++ "&signType=MD5&timeStamp=" ++ timeStamp ++ "&key=" ++ apiKey

def payTerminalSign (appId nonceString prepayId timeStamp apiKey : String) : String :=
  md5Hex (paySignString appId nonceString prepayId timeStamp apiKey)

structure ClientPaymentParams where
  appId : String
  timeStamp : String
  nonceStr : String
  package : String
  signType : String
  paySign : String
  deriving DecidableEq

/-- Extraction of the first prepay_id entry of the xml2js-parsed
gateway response, whose root maps tag names to lists of text values. -/
def extractPrepayId (parsed : List (String × List String)) : Option String :=
  (parsed.lookup "prepay_id").bind List.head?

/-- Pure core of `onPostWxPayV2` after the gateway responds: given the
parsed XML response and the `Date.now()` timestamp string, build the
returned client payment parameters (`none` when `prepay_id` is absent,
where the JS throws and the route answers 400). -/
def onPostWxPayV2Result (apiKey : String) (o : OrderInfo)
    (parsed : List (String × List String)) (timeStamp : String) :
    Option ClientPaymentParams :=
  (extractPrepayId parsed).map (fun prepayId =>
    { appId := o.appId
      timeStamp := timeStamp
      nonceStr := o.nonceString
      package := "prepay_id=" ++ prepayId
      signType := "MD5"
      paySign := payTerminalSign o.appId o.nonceString prepayId timeStamp apiKey })

/-! The pay route (POST pay/v2) up to its outbound gateway call -/

structure PayV2Body where
  appId : Option String
  appSecret : Option String
  mchId : Option String
  openId : Option String
  notifyUrl : Option String
  apiKey : Option String
  deriving DecidableEq

inductive PayV2Step where
  | reject (status : Nat) (error : String)
  | callGateway (apiKey : String) (order : OrderInfo)
  deriving DecidableEq

/-- Fixed attach payload of the pay route: the JSON.stringify output of
the hardcoded object literal (name, price, quantity, id in insertion
order). -/
def attachFixed : String :=
  "\x7b\"name\":\"测试商品\",\"price\":1,\"quantity\":1,\"id\":123\x7d"

/-- The pay route up to its outbound gateway call: the four-credential
validation, then the hardcoded order construction. Randomness is passed
in: `r1` and `r2` are the byte lists of the two `crypto.randomBytes(16)`
draws, hex-encoded by the buffer toString in hex mode (modelled by `bytesToHex`). A
`reject` outcome answers HTTP 400 with an error body and performs no
outbound call; `callGateway` hands the order to `onPostWxPayV2`. -/
def payV2Route (b : PayV2Body) (r1 r2 : List Nat) : PayV2Step :=
  if !truthy b.appId || !truthy b.appSecret || !truthy b.mchId || !truthy b.apiKey then
    .reject 400 "appId and appSecret and mchId and apiKey are required"
  else
    .callGateway (b.apiKey.getD "")
      { appId := b.appId.getD ""
        mchId := b.mchId.getD ""
        nonceString := bytesToHex r1
        body := "测试商品"
        attach := some attachFixed
        outTradeNo := bytesToHex r2
        totalFee := 1
        notifyUrl := b.notifyUrl
        openId := b.openId
        tradeType := none }

/-! The acode route and onPostWxMpACode -/

structure ACodeBody where
  appId : Option String
  appSecret : Option String
  page : Option String
  scene : Option String
  envVersion : Option String
  deriving DecidableEq

inductive ACodeStep where
  | reject (status : Nat) (error : String)
  | proceed (appId appSecret page : String) (scene : Option String) (envVersion : String)
  deriving DecidableEq

/-- The acode route validation and dispatch, up to the outbound calls: a
`reject` outcome answers HTTP 400 and performs no outbound call;
`proceed` carries the parameters into `onPostWxMpACode` (which starts
with the outbound access-token call). -/
def acodeRoute (b : ACodeBody) : ACodeStep :=
  if !truthy b.appId || !truthy b.appSecret || !truthy b.page then
    .reject 400 "appId and appSecret and page are required"
  else
    .proceed (b.appId.getD "") (b.appSecret.getD "") (b.page.getD "") b.scene
      (b.envVersion.getD "release")

/-- One `fs.writeFileSync` performed by a handler: path and contents. -/
structure FileWrite where
  path : String
  contents : String
  deriving DecidableEq

/-- Core of `onPostWxMpACode` after the QR-code gateway call: `respBytes`
is the gateway response body viewed as a string (`ret.data.toString()`),
`jsonParse` models `JSON.parse`. Returns the handler return value and
the list of file writes performed: an `errcode`-bearing response is
parsed and returned with no file written; otherwise the bytes are
written to public/images/buffer.png and the url object is returned. -/
def acodeHandlerCore (jsonParse : String → Json) (respBytes : String) :
    Json × List FileWrite :=
  if strIncludes respBytes "errcode" then (jsonParse respBytes, [])
  else
    (Json.obj [("data", Json.obj [("url", Json.str "/images/buffer.png")])],
     [{ path := "public/images/buffer.png", contents := respBytes }])

/-- Response sent by the acode route when the handler returns `ret`
without throwing: `res.json` wraps the value once more in a `data`
field, with the default 200 status. -/
def acodeRouteResponse (ret : Json) : Nat × Json :=
  (200, Json.obj [("data", ret)])

/-! The pay notification route (POST pay/v2/notify) -/

structure NotifyReq where
  contentType : String
  chunks : List String
  headers : List (String × String)

/-- Model of the two `req.is` checks of the notify route. -/
def isXmlContentType (ct : String) : Bool :=
  ct == "text/xml" || ct == "application/xml"

def headersJson (hs : List (String × String)) : Json :=
  Json.obj (hs.map (fun kv => (kv.1, Json.str kv.2)))

/-- A JS value as it matters to `req.header || req.headers` and
`res.send`: a function (such as the Express header-accessor method), an
object (serializable by `res.send`), or `undefined`. -/
inductive JsVal where
  | jsFun
  | jsObj (j : Json)
  | jsUndef

/-- JS truthiness of a `JsVal`: functions and objects are truthy,
`undefined` is falsy. -/
def JsVal.truthyV : JsVal → Bool
  | .jsUndef => false
  | _ => true

/-- The JS `||` operator on values: the left operand when truthy,
otherwise the right one. -/
def jsOr (a b : JsVal) : JsVal := if a.truthyV then a else b

/-- The `header` property of an Express request: the header-accessor
method that `expressInit` installs on every request (an alias of
`req.get`), a function value. -/
def reqHeaderProp : JsVal := .jsFun

/-- The `headers` property of the request: the raw header object. -/
def reqHeadersProp (req : NotifyReq) : JsVal := .jsObj (headersJson req.headers)

/-- Outcome of the notify route: a body was sent, or `res.send` threw.
`res.send` cannot serialize a function value, so handing it one throws a
TypeError instead of answering the request. -/
inductive NotifyOutcome where
  | sent (body : Json)
  | sendThrows

/-- Model of `res.send` on a JS value: an object is serialized and sent;
a function cannot be serialized, so the call throws; `undefined` sends
an empty body. -/
def resSend : JsVal → NotifyOutcome
  | .jsObj j => .sent j
  | .jsFun => .sendThrows
  | .jsUndef => .sent (Json.str "")

/-- The notify route: an XML-typed request has its body chunks
concatenated and handed to `onWxPayV2Notify`, whose value, the raw body
in a `data` field, is sent; any other request is answered with
`res.send (req.header || req.headers)` — and since `req.header` is the
Express header-accessor method, a truthy function, the disjunction
always picks it and the headers fallback is dead. -/
def notifyRoute (req : NotifyReq) : NotifyOutcome :=
  if isXmlContentType req.contentType then
    .sent (Json.obj [("data", Json.str (req.chunks.foldl (fun acc c => acc ++ c) ""))])
  else resSend (jsOr reqHeaderProp (reqHeadersProp req))

/-! Spec-modelled definitions, for refinement statements

These follow the words of the specification rather than the source, and are
compared with the source-derived definitions above. -/

/-- Modelled from the spec, step 3 of buildSignedOrder: sort the field
names lexicographically ascending, concatenate one name=value& segment
per field in that order, and append key=<secretKey>. -/
def specCanonicalString (fields : List (String × String)) (secretKey : String) : String :=
  (sortPairs fields).foldl (fun acc kv => acc ++ kv.1 ++ "=" ++ kv.2 ++ "&") ""
    ++ "key=" ++ secretKey

/-- Modelled from the spec, step 2 of buildSignedOrder: collect only the
non-empty mapped fields; a field that is absent or maps to the empty
string is omitted. Option values describe the mapped fields before
rendering, so absence is observable. -/
def wxOrderFieldsOpt (o : OrderInfo) : List (String × Option String) :=
  [("appid", some o.appId), ("mch_id", some o.mchId),
   ("nonce_str", some o.nonceString), ("body", some o.body),
   ("attach", o.attach), ("out_trade_no", some o.outTradeNo),
   ("total_fee", some (toString o.totalFee)), ("notify_url", o.notifyUrl),
   ("openid", o.openId), ("trade_type", some (o.tradeType.getD "JSAPI"))]

def specNonEmptyFields (o : OrderInfo) : List (String × String) :=
  (wxOrderFieldsOpt o).filterMap (fun kv =>
    match kv.2 with
    | none => none
    | some v => if v == "" then none else some (kv.1, v))

/-- Modelled from the spec: the second canonical string over exactly the
five fields appId, nonceStr, package=prepay_id=<prepay_id>, signType=MD5
and timeStamp, in that literal order, followed by key=<secretKey>. -/
def specPaySignString (appId nonceStr prepayId timeStamp secretKey : String) : String :=
  "appId=" ++ appId ++ "&" ++ ("nonceStr=" ++ nonceStr) ++ "&" ++
    ("package=" ++ ("prepay_id=" ++ prepayId)) ++ "&" ++ ("signType=" ++ "MD5") ++
    "&" ++ ("timeStamp=" ++ timeStamp) ++ "&" ++ ("key=" ++ secretKey)

/-! Concrete fixture -/

/-- Sample order of the spec: appId wx1, mchId mch1, nonce abc123, body t,
outTradeNo o1, totalFee 1, notifyUrl https://x, with attach, openId and
tradeType left undefined. -/
def oFixture : OrderInfo :=
  { appId := "wx1"
    mchId := "mch1"
    nonceString := "abc123"
    body := "t"
    attach := none
    outTradeNo := "o1"
    totalFee := 1
    notifyUrl := some "https://x"
    openId := none
    tradeType := none }

/-- A concrete pay route request body: all four credentials present,
notifyUrl supplied, openId omitted. -/
def payBodyFix : PayV2Body :=
  { appId := some "wx1", appSecret := some "s", mchId := some "m",
    openId := none, notifyUrl := some "https://x", apiKey := some "key1" }

def r1Fix : List Nat := [0, 1, 2, 3, 4, 5, 6, 7, 8, 9, 10, 11, 12, 13, 14, 15]

def r2Fix : List Nat := [16, 17, 18, 19, 20, 21, 22, 23, 24, 25, 26, 27, 28, 29, 30, 31]

/-- The order the pay route builds from `payBodyFix` with the random
draws `r1Fix` and `r2Fix`. -/
def orderFix : OrderInfo :=
  { appId := "wx1", mchId := "m",
    nonceString := "000102030405060708090a0b0c0d0e0f",
    body := "测试商品", attach := some attachFixed,
    outTradeNo := "101112131415161718191a1b1c1d1e1f", totalFee := 1,
    notifyUrl := some "https://x", openId := none, tradeType := none }

/-- An acode request body missing only scene. -/
def acodeBodyNoScene : ACodeBody :=
  { appId := some "wx1", appSecret := some "s", page := some "pages/index",
    scene := none, envVersion := none }

/-- An acode request body missing only page. -/
def acodeBodyNoPage : ACodeBody :=
  { appId := some "wx1", appSecret := some "s", page := none,
    scene := some "a=1", envVersion := none }

/-- A notify request with an XML content-type and a chunked body. -/
def notifyXmlReq : NotifyReq :=
  { contentType := "text/xml", chunks := ["<xml><a>", "1</a></xml>"], headers := [] }

/-- A notify request with a non-XML content-type and nonempty headers. -/
def notifyPlainReq : NotifyReq :=
  { contentType := "text/plain", chunks := [],
    headers := [("host", "example.org"), ("content-type", "text/plain")] }

example : md5Hex "abc" = "900150983cd24fb0d6963f7d28e17f72" := by decide

example : md5Hex "" = "d41d8cd98f00b204e9800998ecf8427e" := by decide

example : md5Hex "测试商品" = "3b0d9d75a516b6d2ac1697ea125cdbfb" := by decide

example :
    md5Hex "The quick brown fox jumps over the lazy dog................................" =
      "63ba686ab15579f019e59b284d5ee25a" := by decide

example : wxSignString "k1" oFixture =
    "appid=wx1&attach=undefined&body=t&mch_id=mch1&nonce_str=abc123&notify_url=https://x&openid=undefined&out_trade_no=o1&total_fee=1&trade_type=JSAPI&key=k1" := by
  decide

example : wxSign "k1" oFixture = "c69a05777e35068f19a71bbb1dc1c80c" := by decide

/-! Support lemmas -/

theorem md5Bytes_length (m : List Nat) : (md5Bytes m).length = 16 := by
  unfold md5Bytes wordLEBytes
  simp

theorem bytesToHex_length (bs : List Nat) : (bytesToHex bs).length = 2 * bs.length := by
  induction bs with
  | nil => rfl
  | cons b t ih =>
    simp only [bytesToHex, byteToHex, String.length_mk, List.map_cons, List.flatten_cons,
      List.length_cons, List.length_append, List.length_nil] at ih ⊢
    omega

theorem hexDigit_contains (n : Nat) : hexAlphabet.contains (hexDigit n) = true := by
  have h : n % 16 < 16 := Nat.mod_lt _ (by norm_num)
  unfold hexDigit
  generalize hm : n % 16 = m
  rw [hm] at h
  interval_cases m <;> decide

theorem hexDigit_mem (n : Nat) : hexDigit n ∈ hexAlphabet := by
  have h : n % 16 < 16 := Nat.mod_lt _ (by norm_num)
  unfold hexDigit
  generalize hm : n % 16 = m
  rw [hm] at h
  interval_cases m <;> decide

theorem bytesToHex_all_hex (bs : List Nat) :
    (bytesToHex bs).data.all hexAlphabet.contains = true := by
  induction bs with
  | nil => rfl
  | cons b t ih =>
    simp [bytesToHex, byteToHex] at ih ⊢
    exact ⟨hexDigit_mem _, hexDigit_mem _, ih⟩

theorem md5Hex_length (s : String) : (md5Hex s).length = 32 := by
  unfold md5Hex
  rw [bytesToHex_length, md5Bytes_length]

theorem md5Hex_all_hex (s : String) :
    (md5Hex s).data.all hexAlphabet.contains = true :=
  bytesToHex_all_hex _

theorem wxSignString_eq_spec (apiKey : String) (o : OrderInfo) :
    wxSignString apiKey o = specCanonicalString (wxOrderFields o) apiKey := rfl

theorem paySignString_eq_spec (a n p t k : String) :
    paySignString a n p t k = specPaySignString a n p t k := by
  apply String.ext
  simp [paySignString, specPaySignString, String.data_append]

/-! Claim theorems -/

/-- C1: for every order field set and secret key, onPostWxPayV2 computes
the sign field as the lowercase hex MD5 digest of the canonical string
obtained by sorting the gateway field names lexicographically ascending,
concatenating one name=value& segment per field, and appending
key=<secretKey>; the digest is 32 lowercase hex characters, and on the
sample order of the spec with secret key k1 it reproduces the precomputed
digest byte for byte. -/
theorem sign_is_md5_of_spec_canonical_string :
    (∀ (apiKey : String) (o : OrderInfo),
        wxSign apiKey o = md5Hex (specCanonicalString (wxOrderFields o) apiKey) ∧
        (wxSign apiKey o).length = 32 ∧
        (wxSign apiKey o).data.all hexAlphabet.contains = true) ∧
      wxSign "k1" oFixture = "c69a05777e35068f19a71bbb1dc1c80c" := by
  refine ⟨fun apiKey o => ⟨congrArg md5Hex (wxSignString_eq_spec apiKey o),
    md5Hex_length _, md5Hex_all_hex _⟩, by decide⟩

/-- C2 counterexample: on the sample order, whose attach and openId are
absent, the canonical signing string differs from the string built over
only the non-empty mapped fields: the attach and openid segments are
still present, rendered with the text undefined. -/
theorem signString_keeps_absent_fields :
    wxSignString "k1" oFixture ≠
        specCanonicalString (specNonEmptyFields oFixture) "k1" ∧
      strIncludes (wxSignString "k1" oFixture) "openid=undefined" = true ∧
      strIncludes (wxSignString "k1" oFixture) "attach=undefined" = true := by
  refine ⟨by decide, by decide, by decide⟩

/-- C2 amended: the canonical signing string lists all ten mapped fields
in strict lexicographic key order regardless of their values; a field
whose value is empty or absent is not omitted, an absent optional field
appearing with the rendered text undefined (and tradeType defaulting to
JSAPI). -/
theorem signString_lists_all_fields_sorted (apiKey : String) (o : OrderInfo) :
    sortStrings (objKeys o) =
      ["appid", "attach", "body", "mch_id", "nonce_str", "notify_url",
       "openid", "out_trade_no", "total_fee", "trade_type"] ∧
    wxSignString apiKey o = specCanonicalString (wxOrderFields o) apiKey ∧
    objGet o "openid" = jsStr o.openId ∧
    objGet o "attach" = jsStr o.attach ∧
    objGet o "notify_url" = jsStr o.notifyUrl :=
  ⟨rfl, rfl, rfl, rfl, rfl⟩

/-- C3: paySign is the lowercase hex MD5 digest of the canonical string
over exactly the five fields appId, nonceStr, package=prepay_id=...,
signType=MD5 and timeStamp, concatenated in that literal order and
followed by key=<secretKey>. -/
theorem paySign_is_md5_of_literal_order_string
    (appId nonceStr prepayId timeStamp apiKey : String) :
    payTerminalSign appId nonceStr prepayId timeStamp apiKey =
      md5Hex (specPaySignString appId nonceStr prepayId timeStamp apiKey) :=
  congrArg md5Hex (paySignString_eq_spec appId nonceStr prepayId timeStamp apiKey)

/-- C4: a successful onPostWxPayV2 invocation returns exactly the record
of appId, timeStamp, the nonce string, package=prepay_id=<prepay_id>
with the identifier extracted from the parsed gateway XML response, the
fixed signType MD5, and paySign. -/
theorem payV2_result_shape (apiKey : String) (o : OrderInfo)
    (parsed : List (String × List String)) (ts pid : String)
    (h : extractPrepayId parsed = some pid) :
    onPostWxPayV2Result apiKey o parsed ts =
      some { appId := o.appId
             timeStamp := ts
             nonceStr := o.nonceString
             package := "prepay_id=" ++ pid
             signType := "MD5"
             paySign := payTerminalSign o.appId o.nonceString pid ts apiKey } := by
  unfold onPostWxPayV2Result
  rw [h]
  rfl

theorem payV2_result_shape_witness :
    extractPrepayId [("prepay_id", ["pp1"])] = some "pp1" ∧
      onPostWxPayV2Result "k1" oFixture [("prepay_id", ["pp1"])] "1700000000000" =
        some { appId := "wx1", timeStamp := "1700000000000", nonceStr := "abc123",
               package := "prepay_id=pp1", signType := "MD5",
               paySign := "aaa04bd1dd527111f7e2ae4bd7920f37" } := by
  refine ⟨by decide, ?_⟩
  rw [payV2_result_shape "k1" oFixture [("prepay_id", ["pp1"])] "1700000000000" "pp1"
    (by decide)]
  decide

/-- C5: a pay route request in which any of appId, appSecret, mchId or
apiKey is missing or empty is answered with HTTP 400 and an error body,
and no outbound gateway call is made (the route outcome is reject, not
callGateway). -/
theorem payV2_missing_credential_rejected (b : PayV2Body) (r1 r2 : List Nat)
    (h : truthy b.appId = false ∨ truthy b.appSecret = false ∨
      truthy b.mchId = false ∨ truthy b.apiKey = false) :
    payV2Route b r1 r2 =
      .reject 400 "appId and appSecret and mchId and apiKey are required" := by
  unfold payV2Route
  rcases h with h | h | h | h <;> simp [h]

theorem payV2_missing_credential_rejected_witness :
    truthy (none : Option String) = false ∧
      payV2Route { appId := some "wx1", appSecret := some "s", mchId := some "m",
                   openId := none, notifyUrl := none, apiKey := none } [] [] =
        .reject 400 "appId and appSecret and mchId and apiKey are required" :=
  ⟨rfl, payV2_missing_credential_rejected _ [] [] (Or.inr (Or.inr (Or.inr rfl)))⟩

/-- C6: the acode route does not require scene: a request missing only
scene passes the validation (which checks only appId, appSecret and
page) and proceeds to the outbound calls with scene undefined,
contradicting the own documentation of the handler and the claim that a
missing scene is rejected with HTTP 400 before any outbound call. -/
theorem acode_missing_scene_proceeds :
    acodeRoute acodeBodyNoScene = .proceed "wx1" "s" "pages/index" none "release" ∧
      acodeRoute acodeBodyNoPage =
        .reject 400 "appId and appSecret and page are required" := by
  refine ⟨by decide, by decide⟩

/-- C7 counterexample: on a gateway response carrying image data, the
acode route wraps the handler value once more in a data field, so the
response body is not of the single-wrapped shape data.url. -/
theorem acode_success_body_not_single_wrapped :
    (acodeRouteResponse (acodeHandlerCore (fun s => Json.str s) "IMAGEBYTES").1).2 ≠
      Json.obj [("data", Json.obj [("url", Json.str "/images/buffer.png")])] := by
  have hc : strIncludes "IMAGEBYTES" "errcode" = false := by decide
  intro h
  simp [acodeRouteResponse, acodeHandlerCore, hc] at h

/-- C7 amended: for every acode request in which the gateway returns
image data, the route answers HTTP 200 with the body
data.data.url = /images/buffer.png: the data.url object of the handler,
wrapped once more in a data field by res.json. -/
theorem acode_success_response_double_wrapped (jsonParse : String → Json)
    (respBytes : String) (h : strIncludes respBytes "errcode" = false) :
    acodeRouteResponse (acodeHandlerCore jsonParse respBytes).1 =
      (200, Json.obj [("data", Json.obj [("data",
        Json.obj [("url", Json.str "/images/buffer.png")])])]) := by
  simp [acodeRouteResponse, acodeHandlerCore, h]

theorem acode_success_response_double_wrapped_witness :
    strIncludes "IMAGE" "errcode" = false ∧
      acodeRouteResponse (acodeHandlerCore (fun s => Json.str s) "IMAGE").1 =
        (200, Json.obj [("data", Json.obj [("data",
          Json.obj [("url", Json.str "/images/buffer.png")])])]) :=
  ⟨by decide, acode_success_response_double_wrapped (fun s => Json.str s) "IMAGE"
    (by decide)⟩

/-- C8: for every acode gateway response whose body contains the error
indicator errcode, the handler relays the parsed gateway response
instead of treating the bytes as binary image data: it returns exactly
the JSON.parse of the body and performs no file write, so no PNG is
written and no image url object is produced. -/
theorem acode_errcode_relayed (jsonParse : String → Json) (respBytes : String)
    (h : strIncludes respBytes "errcode" = true) :
    acodeHandlerCore jsonParse respBytes = (jsonParse respBytes, []) := by
  simp [acodeHandlerCore, h]

theorem acode_errcode_relayed_witness :
    strIncludes "\x7b\"errcode\":41030,\"errmsg\":\"invalid page\"\x7d" "errcode" = true ∧
      acodeHandlerCore (fun s => Json.str s)
          "\x7b\"errcode\":41030,\"errmsg\":\"invalid page\"\x7d" =
        (Json.str "\x7b\"errcode\":41030,\"errmsg\":\"invalid page\"\x7d", []) :=
  ⟨by decide, acode_errcode_relayed (fun s => Json.str s)
    "\x7b\"errcode\":41030,\"errmsg\":\"invalid page\"\x7d" (by decide)⟩

/-- C9 counterexample: on a non-XML request the route does not echo the
request headers: `req.header`, the Express header-accessor method, is a
truthy function, so `req.header || req.headers` picks it and `res.send`
throws on the function value instead of sending the headers. -/
theorem notify_non_xml_does_not_echo_headers :
    notifyRoute notifyPlainReq = .sendThrows ∧
      notifyRoute notifyPlainReq ≠ .sent (headersJson notifyPlainReq.headers) := by
  have h : notifyRoute notifyPlainReq = .sendThrows := rfl
  refine ⟨h, ?_⟩
  rw [h]
  intro hc
  simp at hc

/-- C9 amended: the notify route accepts an XML-typed request (text/xml
or application/xml) and passes its accumulated raw body through as the
data field of the response; on any other request `res.send` receives
`req.header || req.headers`, which is the truthy Express header-accessor
function, so the send throws and the request headers are never echoed. -/
theorem notify_xml_passthrough_else_send_throws (req : NotifyReq) :
    (isXmlContentType req.contentType = true →
      notifyRoute req =
        .sent (Json.obj [("data",
          Json.str (req.chunks.foldl (fun acc c => acc ++ c) ""))])) ∧
    (isXmlContentType req.contentType = false →
      notifyRoute req = .sendThrows) := by
  constructor <;> intro h <;> simp [notifyRoute, resSend, jsOr, reqHeaderProp,
    JsVal.truthyV, h]

theorem notify_xml_passthrough_else_send_throws_witness :
    (isXmlContentType notifyXmlReq.contentType = true ∧
      notifyRoute notifyXmlReq =
        .sent (Json.obj [("data", Json.str "<xml><a>1</a></xml>")])) ∧
    (isXmlContentType notifyPlainReq.contentType = false ∧
      notifyRoute notifyPlainReq = .sendThrows) :=
  ⟨⟨by decide, (notify_xml_passthrough_else_send_throws notifyXmlReq).1 (by decide)⟩,
   ⟨by decide, (notify_xml_passthrough_else_send_throws notifyPlainReq).2 (by decide)⟩⟩

/-- C10: for every pay route request that reaches the gateway call, the
submitted order uses hardcoded order details regardless of caller
input: the fixed body text, totalFee 1, the fixed attach JSON string,
and nonce and order number that are the hex encodings of the two
16-byte random draws, hence 32 lowercase hex characters; the caller
contributes only the credentials and the optional openId and
notifyUrl. -/
theorem payV2_order_hardcoded (b : PayV2Body) (r1 r2 : List Nat)
    (apiKey : String) (order : OrderInfo)
    (h : payV2Route b r1 r2 = .callGateway apiKey order) :
    order.body = "测试商品" ∧ order.totalFee = 1 ∧ order.attach = some attachFixed ∧
    order.nonceString = bytesToHex r1 ∧ order.outTradeNo = bytesToHex r2 ∧
    order.appId = b.appId.getD "" ∧ order.mchId = b.mchId.getD "" ∧
    order.notifyUrl = b.notifyUrl ∧ order.openId = b.openId ∧
    apiKey = b.apiKey.getD "" ∧
    (r1.length = 16 → order.nonceString.length = 32 ∧
      order.nonceString.data.all hexAlphabet.contains = true) ∧
    (r2.length = 16 → order.outTradeNo.length = 32 ∧
      order.outTradeNo.data.all hexAlphabet.contains = true) := by
  unfold payV2Route at h
  split at h
  · simp at h
  · injection h with h1 h2
    subst h1
    subst h2
    refine ⟨rfl, rfl, rfl, rfl, rfl, rfl, rfl, rfl, rfl, rfl, ?_, ?_⟩ <;> intro hr <;>
      refine ⟨?_, bytesToHex_all_hex _⟩ <;> rw [bytesToHex_length, hr]

theorem payV2_order_hardcoded_witness :
    payV2Route payBodyFix r1Fix r2Fix = .callGateway "key1" orderFix ∧
      orderFix.nonceString.length = 32 ∧
      orderFix.outTradeNo.data.all hexAlphabet.contains = true := by
  have h : payV2Route payBodyFix r1Fix r2Fix = .callGateway "key1" orderFix := by decide
  refine ⟨h, ?_, ?_⟩
  · exact ((payV2_order_hardcoded payBodyFix r1Fix r2Fix "key1" orderFix
      h).2.2.2.2.2.2.2.2.2.2.1 (by decide)).1
  · exact ((payV2_order_hardcoded payBodyFix r1Fix r2Fix "key1" orderFix
      h).2.2.2.2.2.2.2.2.2.2.2 (by decide)).2

end WxPay
